import Mathlib

/-!
Shallow embedding of the audio capture / normalization / model-lifecycle core
of the whispering src-tauri crate:
  - transcription/model_manager.rs (ModelManager, Engine enum),
  - transcription/mod.rs (is_valid_wav_format, convert_audio_rust,
    convert_audio_for_whisper, transcribe_audio_* lock call sites),
  - recorder/recorder.rs (RecorderState lifecycle operations).

Machine integers are modelled as Nat/Int; f32/f64 sample arithmetic is
idealized as exact rational arithmetic (the claims under study concern
formats, lengths and control flow, not rounded sample values).  External
crates (hound, rubato, cpal, tempfile, std::process) are modelled by their
observable contracts at the call sites, as documented on each definition.
The build is modelled with the `whisper` cargo feature enabled, so the
`cfg(feature = "whisper")` match arms of model_manager.rs are present.
-/

/-! ## Model Manager (transcription/model_manager.rs) -/

/-- Engine enum from model_manager.rs: `Parakeet(ParakeetEngine)`,
`Whisper(WhisperEngine)` (feature-gated), `Moonshine(MoonshineEngine)`.
The native engine payloads carry no information the claims observe, so only
the discriminant is kept. -/
inductive EngineKind
  | parakeet
  | whisper
  | moonshine
deriving DecidableEq

/-- MoonshineModelParams variants (`tiny` / `base`) passed to
`get_or_load_moonshine`. -/
inductive MoonshineParams
  | tiny
  | base
deriving DecidableEq

/-- ModelManager state: the `engine` and `current_model_path` mutex contents,
the `last_activity` timestamp (seconds, as Nat), and one poison flag per
mutex (a std Mutex becomes poisoned when a holder panics; `lock()` then
returns Err, and `PoisonError::into_inner` does NOT clear the flag). -/
structure MMState where
  engine : Option EngineKind
  currentModelPath : Option String
  lastActivity : Nat
  enginePoisoned : Bool
  pathPoisoned : Bool
  activityPoisoned : Bool
deriving DecidableEq

/-- ModelManager::new(): empty slots, fresh timestamp (modelled as 0),
idle_timeout of 5 * 60 seconds (see `idleTimeoutSecs`). -/
def mmInit : MMState :=
  { engine := none, currentModelPath := none, lastActivity := 0,
    enginePoisoned := false, pathPoisoned := false, activityPoisoned := false }

/-- Duration::from_secs(5 * 60), the default idle_timeout. -/
def idleTimeoutSecs : Nat := 5 * 60

/-- Display text of std::sync::PoisonError, interpolated into the error
strings built by the `map_err` closures in model_manager.rs. -/
def poisonedLockMsg : String := "poisoned lock: another task failed inside"

/-- The `needs_load` match of ModelManager::get_or_load_parakeet
(model_manager.rs lines 64-83), with the engine slot after any
`engine_guard.take()` unload.  Arms in source order:
`(None, _)`; `(Some(_), Some(path)) if path != &model_path`;
`(Some(Engine::Whisper(_)), _)` (feature "whisper"); catch-all `_ => false`.
Note there is no arm for a Moonshine engine at the same path. -/
def parakeetNeedsLoad (e : Option EngineKind) (cp : Option String) (p : String) :
    Option EngineKind × Bool :=
  match e, cp with
  | none, _ => (none, true)
  | some ek, some q =>
      if q ≠ p then (none, true)
      else if ek = EngineKind.whisper then (none, true)
      else (some ek, false)
  | some ek, none =>
      if ek = EngineKind.whisper then (none, true) else (some ek, false)

/-- The `needs_load` match of ModelManager::get_or_load_whisper
(feature "whisper" build, model_manager.rs lines 123-141).  Arms:
`(None, _)`; different path; `(Some(Engine::Parakeet(_)), _)`; `_ => false`.
No arm for a Moonshine engine at the same path. -/
def whisperNeedsLoad (e : Option EngineKind) (cp : Option String) (p : String) :
    Option EngineKind × Bool :=
  match e, cp with
  | none, _ => (none, true)
  | some ek, some q =>
      if q ≠ p then (none, true)
      else if ek = EngineKind.parakeet then (none, true)
      else (some ek, false)
  | some ek, none =>
      if ek = EngineKind.parakeet then (none, true) else (some ek, false)

/-- The `needs_load` match of ModelManager::get_or_load_moonshine
(model_manager.rs lines 189-215).  Arms: `(None, _)`; different path;
`(Some(Engine::Whisper(_)), _)`; `(Some(Engine::Parakeet(_)), _)`;
`_ => false`.  This one does unload on every wrong engine kind. -/
def moonshineNeedsLoad (e : Option EngineKind) (cp : Option String) (p : String) :
    Option EngineKind × Bool :=
  match e, cp with
  | none, _ => (none, true)
  | some ek, some q =>
      if q ≠ p then (none, true)
      else if ek = EngineKind.whisper then (none, true)
      else if ek = EngineKind.parakeet then (none, true)
      else (some ek, false)
  | some ek, none =>
      if ek = EngineKind.whisper then (none, true)
      else if ek = EngineKind.parakeet then (none, true)
      else (some ek, false)

/-- ModelManager::get_or_load_parakeet (model_manager.rs lines 47-103).
`load` models `ParakeetEngine::load_model_with_params` at the given path
(external native loader); `now` models SystemTime::now().  Both mutexes are
locked up front with `map_err(...)?`, so a poisoned mutex is surfaced as an
error string.  On load failure the call returns early, before the
last-activity update, with the engine slot as left by the match (taken). -/
def getOrLoadParakeet (load : String → Except String Unit) (now : Nat)
    (p : String) (s : MMState) : MMState × Except String Unit :=
  if s.enginePoisoned then
    (s, .error ("Engine mutex poisoned (likely due to previous panic): " ++ poisonedLockMsg))
  else if s.pathPoisoned then
    (s, .error ("Model path mutex poisoned (likely due to previous panic): " ++ poisonedLockMsg))
  else
    let r := parakeetNeedsLoad s.engine s.currentModelPath p
    let s0 := { s with engine := r.1 }
    if r.2 then
      match load p with
      | .error e => (s0, .error ("Failed to load Parakeet model: " ++ e))
      | .ok _ =>
          let s1 := { s0 with engine := some EngineKind.parakeet, currentModelPath := some p }
          if s1.activityPoisoned then
            (s1, .error ("Last activity mutex poisoned: " ++ poisonedLockMsg))
          else ({ s1 with lastActivity := now }, .ok ())
    else
      if s0.activityPoisoned then
        (s0, .error ("Last activity mutex poisoned: " ++ poisonedLockMsg))
      else ({ s0 with lastActivity := now }, .ok ())

/-- ModelManager::get_or_load_whisper (feature "whisper" build,
model_manager.rs lines 106-161); `load` models WhisperEngine::load_model. -/
def getOrLoadWhisper (load : String → Except String Unit) (now : Nat)
    (p : String) (s : MMState) : MMState × Except String Unit :=
  if s.enginePoisoned then
    (s, .error ("Engine mutex poisoned (likely due to previous panic): " ++ poisonedLockMsg))
  else if s.pathPoisoned then
    (s, .error ("Model path mutex poisoned (likely due to previous panic): " ++ poisonedLockMsg))
  else
    let r := whisperNeedsLoad s.engine s.currentModelPath p
    let s0 := { s with engine := r.1 }
    if r.2 then
      match load p with
      | .error e => (s0, .error ("Failed to load Whisper model: " ++ e))
      | .ok _ =>
          let s1 := { s0 with engine := some EngineKind.whisper, currentModelPath := some p }
          if s1.activityPoisoned then
            (s1, .error ("Last activity mutex poisoned: " ++ poisonedLockMsg))
          else ({ s1 with lastActivity := now }, .ok ())
    else
      if s0.activityPoisoned then
        (s0, .error ("Last activity mutex poisoned: " ++ poisonedLockMsg))
      else ({ s0 with lastActivity := now }, .ok ())

/-- ModelManager::get_or_load_moonshine (model_manager.rs lines 171-235);
`load` models MoonshineEngine::load_model_with_params with the requested
MoonshineModelParams variant. -/
def getOrLoadMoonshine (load : String → MoonshineParams → Except String Unit)
    (now : Nat) (p : String) (variant : MoonshineParams) (s : MMState) :
    MMState × Except String Unit :=
  if s.enginePoisoned then
    (s, .error ("Engine mutex poisoned (likely due to previous panic): " ++ poisonedLockMsg))
  else if s.pathPoisoned then
    (s, .error ("Model path mutex poisoned (likely due to previous panic): " ++ poisonedLockMsg))
  else
    let r := moonshineNeedsLoad s.engine s.currentModelPath p
    let s0 := { s with engine := r.1 }
    if r.2 then
      match load p variant with
      | .error e => (s0, .error ("Failed to load Moonshine model: " ++ e))
      | .ok _ =>
          let s1 := { s0 with engine := some EngineKind.moonshine, currentModelPath := some p }
          if s1.activityPoisoned then
            (s1, .error ("Last activity mutex poisoned: " ++ poisonedLockMsg))
          else ({ s1 with lastActivity := now }, .ok ())
    else
      if s0.activityPoisoned then
        (s0, .error ("Last activity mutex poisoned: " ++ poisonedLockMsg))
      else ({ s0 with lastActivity := now }, .ok ())

/-- ModelManager::unload_model (model_manager.rs lines 271-287): on a
poisoned engine mutex it logs and returns without touching anything;
otherwise takes the engine, then clears the path unless that mutex
is poisoned (in which case it only logs). -/
def unloadModel (s : MMState) : MMState :=
  if s.enginePoisoned then s
  else
    let s1 := { s with engine := none }
    if s1.pathPoisoned then s1 else { s1 with currentModelPath := none }

/-- ModelManager::unload_if_idle (model_manager.rs lines 237-269):
reads last_activity (returning on poison), computes the elapsed time
(`duration_since(..).unwrap_or(0)` is Nat subtraction), and if it strictly
exceeds the idle timeout performs the same eviction as unload_model. -/
def unloadIfIdle (now : Nat) (s : MMState) : MMState :=
  if s.activityPoisoned then s
  else if now - s.lastActivity > idleTimeoutSecs then
    if s.enginePoisoned then s
    else
      let s1 := { s with engine := none }
      if s1.pathPoisoned then s1 else { s1 with currentModelPath := none }
  else s

/-- The engine-lock acquisition at the transcribe_audio_* call sites
(transcription/mod.rs, e.g. lines 645-652):
`engine_arc.lock().unwrap_or_else(|poisoned| { let mut recovered =
poisoned.into_inner(); *recovered = None; recovered })`.
On poison it recovers the guard and clears the slot; the mutex itself
stays poisoned (into_inner does not clear the flag). -/
def transcribeLockEngine (s : MMState) : MMState :=
  if s.enginePoisoned then { s with engine := none } else s

/-! ## TranscriptionError (transcription/error.rs, via its uses in mod.rs) -/

/-- TranscriptionError variants as constructed in transcription/mod.rs
(error.rs itself is not among the provided sources; the variants below are
exactly those used there).  The spec's semantic kind
`UnsupportedSampleRateError` is realized as `audioReadError` with a
distinguished message, see `unsupportedSampleRateError`. -/
inductive TranscriptionError
  | audioReadError (message : String)
  | ffmpegNotFoundError (message : String)
  | modelLoadError (message : String)
  | transcriptionFailed (message : String)
deriving DecidableEq

/-- Modelled from the spec: the semantic error kind
`UnsupportedSampleRateError` of spec section 7.  The enum definition
(error.rs) is not under src/; at its single construction site
(convert_audio_rust, mod.rs lines 172-179) it is realized as
`TranscriptionError::AudioReadError` carrying this message. -/
def unsupportedSampleRateError (sampleRate : Nat) : TranscriptionError :=
  .audioReadError ("Sample rate " ++ toString sampleRate ++ " Hz is too low (minimum 2000 Hz)")

/-! ## Audio Normalizer (transcription/mod.rs) -/

/-- hound::SampleFormat: integer or IEEE float PCM. -/
inductive WavSampleFormat
  | int
  | float
deriving DecidableEq

/-- hound::WavSpec header fields read by the normalizer. -/
structure WavSpec where
  channels : Nat
  sampleRate : Nat
  bitsPerSample : Nat
  sampleFormat : WavSampleFormat
deriving DecidableEq

/-- A WAV byte buffer that hound parses successfully, abstracted to its
header and its interleaved raw sample values (integers for int PCM, already
normalized values for float PCM; exact rationals stand in for f32).
All declared samples are readable (truncated payloads are not modelled). -/
structure WavFile where
  spec : WavSpec
  samples : List ℚ
deriving DecidableEq

/-- An input byte buffer for the normalizer: either it parses as a WAV
(hound::WavReader::new succeeds) or it does not, in which case `msg` is the
display text of the hound parse error. -/
inductive AudioData
  | wav (w : WavFile)
  | malformed (msg : String)
deriving DecidableEq

/-- The canonical output format: 16 kHz, mono, 16-bit signed integer PCM
(the hound::WavSpec built at mod.rs lines 284-289). -/
def canonicalSpec : WavSpec :=
  { channels := 1, sampleRate := 16000, bitsPerSample := 16, sampleFormat := .int }

/-- is_valid_wav_format (mod.rs lines 28-40): parse the header and check
Int format, mono, 16000 Hz, 16 bits, in that order; unparseable data is
not valid. -/
def isValidWavFormat (audioData : AudioData) : Bool :=
  match audioData with
  | .wav w =>
      decide (w.spec.sampleFormat = .int) &&
      w.spec.channels == 1 &&
      w.spec.sampleRate == 16000 &&
      w.spec.bitsPerSample == 16
  | .malformed _ => false

/-- Step 1 of convert_audio_rust (mod.rs lines 78-117): read all samples and
convert to f32 normalized to [-1.0, 1.0].  16-bit int divides by 32768,
32-bit int divides by 2147483648, other int bit depths are rejected, float
passes through. -/
def readSamplesF32 (w : WavFile) : Except TranscriptionError (List ℚ) :=
  match w.spec.sampleFormat with
  | .int =>
      if w.spec.bitsPerSample = 16 then .ok (w.samples.map (fun s => s / 32768))
      else if w.spec.bitsPerSample = 32 then .ok (w.samples.map (fun s => s / 2147483648))
      else .error (.audioReadError
        ("Unsupported bit depth: " ++ toString w.spec.bitsPerSample ++ " bits"))
  | .float => .ok w.samples

/-- slice::chunks_exact with a fuel argument for structural recursion
(fuel is the list length at the top-level call; chunks_exact drops any
remainder shorter than n).  The Rust method panics for n = 0; that case is
never reached here because convert_audio_rust only calls it with
channels ≥ 2, and the n = 0 guard below makes the Lean function total. -/
def chunksExactGo (n : Nat) : Nat → List ℚ → List (List ℚ)
  | 0, _ => []
  | fuel + 1, l =>
      if 0 < n ∧ n ≤ l.length then l.take n :: chunksExactGo n fuel (l.drop n)
      else []

/-- chunks_exact entry point. -/
def chunksExact (n : Nat) (l : List ℚ) : List (List ℚ) :=
  chunksExactGo n l.length l

/-- Step 2 of convert_audio_rust (mod.rs lines 124-148): downmix to mono.
Mono passes through; stereo averages the two channels of each frame; more
channels average all channels of each frame.  The `| _ => 0` default is
unreachable: chunksExact 2 only yields two-element chunks. -/
def downmixMono (channels : Nat) (samples : List ℚ) : List ℚ :=
  if channels = 1 then samples
  else if channels = 2 then
    (chunksExact 2 samples).map (fun c =>
      match c with
      | [l, r] => (l + r) / 2
      | _ => 0)
  else
    (chunksExact channels samples).map (fun c => c.sum / (channels : ℚ))

/-- The expected resampled length (mod.rs line 164):
`(mono_samples.len() as f64 * (16000.0 / sample_rate as f64)).round()`,
idealized as exact rational arithmetic with round-half-away-from-zero, i.e.
floor((2 * n * 16000 + r) / (2 * r)) in Nat arithmetic. -/
def expectedOutputLen (r n : Nat) : Nat :=
  (2 * (n * 16000) + r) / (2 * r)

/-- Modelled from the spec: cumulative output frame count of the external
windowed-sinc resampler (rubato::SincFixedIn, not part of this repository)
after consuming m input frames at nominal ratio 16000/r — the number of
interpolation positions k/ratio, k = 0, 1, 2, ..., that lie strictly inside
the consumed input, i.e. the count of k with k * r < m * 16000, which is
ceil(m * 16000 / r). -/
def sincCumOut (r m : Nat) : Nat :=
  (m * 16000 + r - 1) / r

/-- The chunked resampling loop of convert_audio_rust (mod.rs lines
216-244): consume 1024-sample chunks (zero-padding the final one), feed
each to the resampler, and append its output.  `fuel` is for structural
recursion (one unit per chunk; the caller passes the input length, which
always suffices).  The sinc filter's output sample values are external and
not modelled (zeros stand in); only the per-chunk output counts, given by
`sincCumOut` on the cumulative input consumed, are modelled. -/
def resampleLoopGo (r inputLen : Nat) : Nat → Nat → Nat → List ℚ → List ℚ
  | 0, _, _, acc => acc
  | fuel + 1, inputPos, cout, acc =>
      if inputPos < inputLen then
        let newCout := sincCumOut r (inputPos + 1024)
        resampleLoopGo r inputLen fuel (inputPos + 1024) newCout
          (acc ++ List.replicate (newCout - cout) 0)
      else acc

/-- The resampling loop, started at input position 0 with no output yet. -/
def resampleLoop (r : Nat) (monoSamples : List ℚ) : List ℚ :=
  resampleLoopGo r monoSamples.length monoSamples.length 0 0 []

/-- The pure-resample computation: run the chunked loop, then
`output_samples.truncate(expected_output_len)` (mod.rs line 247). -/
def resampleTo16k (r : Nat) (monoSamples : List ℚ) : List ℚ :=
  (resampleLoop r monoSamples).take (expectedOutputLen r monoSamples.length)

/-- Step 3 of convert_audio_rust (mod.rs lines 156-260): if the rate is not
16000, compute the expected length, reject ratios above 8 (the f64 test
`16000.0 / r > 8.0` is `8 * r < 16000` for machine integers r, including
r = 0 where the f64 ratio is +inf), create the resampler (its construction
does not fail for these parameters), run the chunked loop and truncate;
otherwise pass the mono samples through. -/
def resampleStep (sampleRate : Nat) (monoSamples : List ℚ) :
    Except TranscriptionError (List ℚ) :=
  if sampleRate ≠ 16000 then
    if 8 * sampleRate < 16000 then
      .error (unsupportedSampleRateError sampleRate)
    else
      .ok (resampleTo16k sampleRate monoSamples)
  else
    .ok monoSamples

/-- Step 4 of convert_audio_rust (mod.rs lines 267-274): clamp each sample
to [-1.0, 1.0] (`sample.max(-1.0).min(1.0)`), scale by 32767, and convert
with `as i16`, which truncates toward zero (Int.tdiv of the rational's
numerator by its denominator). -/
def f32ToI16 (s : ℚ) : Int :=
  let clamped : ℚ := if s < -1 then -1 else if 1 < s then 1 else s
  (clamped * 32767).num.tdiv ((clamped * 32767).den : Int)

/-- convert_audio_rust (mod.rs lines 53-319): parse, normalize samples to
float, downmix, resample, convert back to 16-bit PCM and serialize a mono
16 kHz 16-bit WAV (the in-memory hound writer of step 5 does not fail). -/
def convertAudioRust (audioData : AudioData) : Except TranscriptionError AudioData :=
  match audioData with
  | .malformed msg => .error (.audioReadError ("Failed to parse WAV file: " ++ msg))
  | .wav w =>
      match readSamplesF32 w with
      | .error e => .error e
      | .ok samplesF32 =>
          match resampleStep w.spec.sampleRate (downmixMono w.spec.channels samplesF32) with
          | .error e => .error e
          | .ok resampled =>
              .ok (.wav { spec := canonicalSpec,
                          samples := (resampled.map f32ToI16).map (fun i => (i : ℚ)) })

/-- Outcome of the tier-3 external FFmpeg invocation
(std::process::Command::new("ffmpeg")...output(), mod.rs lines 403-418),
an external process treated as an oracle: the io error kinds of spawning,
or a completed run with its exit status, stderr, and (on success) the
16 kHz/mono/16-bit WAV bytes read back from the temp output file. -/
inductive FfmpegOutcome
  | ioNotFound
  | ioError (msg : String)
  | ran (success : Bool) (stderr : String) (outputBytes : AudioData)
deriving DecidableEq

/-- Message of the distinguished FfmpegNotFoundError (mod.rs line 423). -/
def ffmpegMissingMsg : String :=
  "FFmpeg is not installed. Install FFmpeg to convert audio formats for local transcription."

/-- Tier 3 of convert_audio_for_whisper (mod.rs lines 380-443): write the
input to a temp file, run ffmpeg, and map the outcome.  The in-sandbox temp
file creation/write/read steps are modelled as succeeding; the process
invocation is the oracle. -/
def runFfmpegTier (ffmpeg : AudioData → FfmpegOutcome) (audioData : AudioData) :
    Except TranscriptionError AudioData :=
  match ffmpeg audioData with
  | .ioNotFound => .error (.ffmpegNotFoundError ffmpegMissingMsg)
  | .ioError m => .error (.audioReadError ("Failed to run ffmpeg: " ++ m))
  | .ran false stderr _ =>
      .error (.audioReadError ("FFmpeg conversion failed: " ++ stderr))
  | .ran true _ outputBytes => .ok outputBytes

/-- convert_audio_for_whisper (mod.rs lines 348-444): tier 1 returns the
input unchanged if it is already canonical; tier 2 tries the pure Rust
conversion; on any tier-2 error the function falls through (logging only)
to the tier-3 FFmpeg fallback. -/
def convertAudioForWhisper (ffmpeg : AudioData → FfmpegOutcome)
    (audioData : AudioData) : Except TranscriptionError AudioData :=
  if isValidWavFormat audioData then .ok audioData
  else
    match convertAudioRust audioData with
    | .ok converted => .ok converted
    | .error _ => runFfmpegTier ffmpeg audioData

/-- The engine extraction after the lock at the transcribe_audio_parakeet
call site (mod.rs lines 644-667): recover the lock (clearing the slot on
poison), then fail with ModelLoadError if the slot is empty or holds a
different engine kind than expected. -/
def transcribeAcquireParakeet (s : MMState) : MMState × Except TranscriptionError Unit :=
  let s1 := transcribeLockEngine s
  match s1.engine with
  | none =>
      (s1, .error (.modelLoadError
        "Model not loaded (may have been cleared after previous error). Please try again."))
  | some EngineKind.parakeet => (s1, .ok ())
  | some _ =>
      (s1, .error (.modelLoadError "Expected Parakeet engine but got different type"))

/-- The engine extraction after the lock at the transcribe_audio_whisper
call site (feature "whisper" build, mod.rs lines 545-568), with the same
into_inner recovery and empty-slot / wrong-kind ModelLoadError shape as
the Parakeet site. -/
def transcribeAcquireWhisper (s : MMState) : MMState × Except TranscriptionError Unit :=
  let s1 := transcribeLockEngine s
  match s1.engine with
  | none =>
      (s1, .error (.modelLoadError
        "Model not loaded (may have been cleared after previous error). Please try again."))
  | some EngineKind.whisper => (s1, .ok ())
  | some _ =>
      (s1, .error (.modelLoadError "Expected Whisper engine but got different type"))

/-- The engine extraction after the lock at the transcribe_audio_moonshine
call site (mod.rs lines 754-777), with the same into_inner recovery and
empty-slot / wrong-kind ModelLoadError shape as the Parakeet site. -/
def transcribeAcquireMoonshine (s : MMState) : MMState × Except TranscriptionError Unit :=
  let s1 := transcribeLockEngine s
  match s1.engine with
  | none =>
      (s1, .error (.modelLoadError
        "Model not loaded (may have been cleared after previous error). Please try again."))
  | some EngineKind.moonshine => (s1, .ok ())
  | some _ =>
      (s1, .error (.modelLoadError "Expected Moonshine engine but got different type"))

/-! ## Recording Engine (recorder/recorder.rs) -/

/-- The WavWriter held behind Arc-Mutex by RecorderState: the metadata
`get_metadata()` reports (sample rate, channels, duration in seconds) and
whether the container header has been finalized. -/
structure WriterMeta where
  sampleRate : Nat
  channels : Nat
  duration : ℚ
  finalized : Bool
deriving DecidableEq

/-- AudioRecording (recorder.rs lines 23-31), the metadata record returned
by stop_recording; audio_data is always empty for file-based recording. -/
structure AudioRecording where
  audioData : List ℚ
  sampleRate : Nat
  channels : Nat
  durationSeconds : ℚ
  filePath : Option String
deriving DecidableEq

/-- RecorderState (recorder.rs lines 42-51).  The worker command channel
and join handle are modelled by presence flags (their only observable role
in the claims is whether a session exists); the shared is_recording flag
and the plain session fields are kept as data. -/
structure RecorderState where
  cmdTx : Bool
  workerHandle : Bool
  writer : Option WriterMeta
  isRecording : Bool
  sampleRate : Nat
  channels : Nat
  filePath : Option String
deriving DecidableEq

/-- RecorderState::new (recorder.rs lines 54-65). -/
def recorderNew : RecorderState :=
  { cmdTx := false, workerHandle := false, writer := none, isRecording := false,
    sampleRate := 0, channels := 0, filePath := none }

/-- RecorderState::close_session (recorder.rs lines 276-301): best-effort
teardown that never returns Err — take and drop the command sender (the
shutdown send result is ignored), join the worker (result ignored), take
and finalize the writer (errors ignored), and clear the session fields.
The is_recording flag is not touched.  The worker join and writer finalize
are external side effects with no observable state here. -/
def closeSession (s : RecorderState) : RecorderState × Except String Unit :=
  ({ s with cmdTx := false, workerHandle := false, writer := none,
            filePath := none, sampleRate := 0, channels := 0 },
   .ok ())

/-- RecorderState::start_recording (recorder.rs lines 198-211): with a
command channel present, send Start and block on the rendezvous reply (the
worker sets is_recording to true before replying, modelled synchronously
with a live worker); with no session, fail. -/
def startRecording (s : RecorderState) : RecorderState × Except String Unit :=
  if s.cmdTx then ({ s with isRecording := true }, .ok ())
  else (s, .error "No recording session initialized")

/-- RecorderState::stop_recording (recorder.rs lines 214-252): if a command
channel exists, send Stop and wait (the worker clears is_recording);
then, if a writer exists, finalize it and report its metadata, otherwise
fall back to the stored sample_rate/channels and duration 0.0; return the
AudioRecording with empty audio_data and the session file path. -/
def stopRecording (s : RecorderState) : RecorderState × Except String AudioRecording :=
  let s1 := if s.cmdTx then { s with isRecording := false } else s
  match s1.writer with
  | some wm =>
      let wm2 := { wm with finalized := true }
      let s2 := { s1 with writer := some wm2 }
      (s2, .ok { audioData := [], sampleRate := wm2.sampleRate,
                 channels := wm2.channels, durationSeconds := wm2.duration,
                 filePath := s2.filePath })
  | none =>
      (s1, .ok { audioData := [], sampleRate := s1.sampleRate,
                 channels := s1.channels, durationSeconds := 0,
                 filePath := s1.filePath })

/-- A closed (or never-initialized) session: no worker command channel, no
worker handle, no writer, and cleared session fields — the state produced
by RecorderState::new and by close_session. -/
def sessionClosed (s : RecorderState) : Prop :=
  s.cmdTx = false ∧ s.workerHandle = false ∧ s.writer = none ∧
  s.filePath = none ∧ s.sampleRate = 0 ∧ s.channels = 0

instance (s : RecorderState) : Decidable (sessionClosed s) := by
  unfold sessionClosed; infer_instance

/-! ## Concrete instances used by the witness theorems -/

/-- A loader stub that succeeds on every path. -/
def loadOkAlways : String → Except String Unit := fun _ => .ok ()

/-- A Moonshine loader stub that succeeds on every path and variant. -/
def moonLoadOkAlways : String → MoonshineParams → Except String Unit := fun _ _ => .ok ()

/-- A loader stub that succeeds only on the path "good". -/
def demoLoad : String → Except String Unit :=
  fun x => if x = "good" then .ok () else .error "missing model file"

/-- A manager state whose engine mutex is poisoned by a previous panic. -/
def poisonedState : MMState :=
  { engine := some EngineKind.parakeet, currentModelPath := some "model-dir",
    lastActivity := 0, enginePoisoned := true, pathPoisoned := false,
    activityPoisoned := false }

/-- A stereo 48 kHz 16-bit WAV with an empty sample list (witnesses need
only the header-driven control flow; Mathlib's rational numerals do not
kernel-reduce, so sample values are kept out of evaluated witnesses). -/
def demoStereo48k : AudioData :=
  .wav { spec := { channels := 2, sampleRate := 48000, bitsPerSample := 16,
                   sampleFormat := .int },
         samples := [] }

/-- An FFmpeg oracle for a host without the ffmpeg binary. -/
def demoFfmpegMissing : AudioData → FfmpegOutcome := fun _ => .ioNotFound

/-! ## Theorems -/

/-- C9: close_session is idempotent — it always succeeds, running it twice
in a row succeeds both times with the second call a no-op, and on an
already-closed session (no worker, no writer, cleared fields) it is a
no-op that leaves the recorder state unchanged. -/
theorem closeSession_idempotent (s : RecorderState) :
    ((closeSession s).2 = .ok () ∧
      closeSession (closeSession s).1 = ((closeSession s).1, .ok ())) ∧
    (sessionClosed s → closeSession s = (s, .ok ())) := by
  refine ⟨⟨rfl, rfl⟩, ?_⟩
  rintro ⟨h1, h2, h3, h4, h5, h6⟩
  obtain ⟨c, wh, wr, ir, sr, ch, fp⟩ := s
  simp only [closeSession]
  simp_all

/-- Witness for C9 at the fresh recorder state. -/
theorem closeSession_idempotent_witness :
    sessionClosed recorderNew ∧ closeSession recorderNew = (recorderNew, .ok ()) :=
  ⟨by decide, (closeSession_idempotent recorderNew).2 (by decide)⟩

/-- C10: stop_recording with no initialized session (no command channel, no
writer, cleared fields) succeeds and returns an AudioRecording with
sample_rate 0, channels 0, duration 0.0, empty audio_data and no file path,
while start_recording fails in that same state. -/
theorem stopRecording_no_session (s : RecorderState)
    (hc : s.cmdTx = false) (hw : s.writer = none) (hsr : s.sampleRate = 0)
    (hch : s.channels = 0) (hfp : s.filePath = none) :
    stopRecording s = (s, .ok { audioData := [], sampleRate := 0, channels := 0,
                                durationSeconds := 0, filePath := none }) ∧
    startRecording s = (s, .error "No recording session initialized") := by
  constructor
  · simp [stopRecording, hc, hw, hsr, hch, hfp]
  · simp [startRecording, hc]

/-- Witness for C10 at the fresh recorder state. -/
theorem stopRecording_no_session_witness :
    stopRecording recorderNew = (recorderNew,
      .ok { audioData := [], sampleRate := 0, channels := 0,
            durationSeconds := 0, filePath := none }) ∧
    startRecording recorderNew = (recorderNew, .error "No recording session initialized") :=
  ⟨(stopRecording_no_session recorderNew rfl rfl rfl rfl rfl).1,
   (stopRecording_no_session recorderNew rfl rfl rfl rfl rfl).2⟩

/-- C6: the fast path — an input that already parses as a canonical
16 kHz/mono/16-bit-int WAV is returned by convert_audio_for_whisper
unchanged, with no sample processing. -/
theorem fastPath_identity (audioData : AudioData) (ffmpeg : AudioData → FfmpegOutcome)
    (h : isValidWavFormat audioData = true) :
    convertAudioForWhisper ffmpeg audioData = .ok audioData := by
  simp [convertAudioForWhisper, h]

/-- Witness for C6 on a canonical empty WAV. -/
theorem fastPath_identity_witness :
    isValidWavFormat (.wav { spec := canonicalSpec, samples := [] }) = true ∧
    convertAudioForWhisper demoFfmpegMissing (.wav { spec := canonicalSpec, samples := [] })
      = .ok (.wav { spec := canonicalSpec, samples := [] }) :=
  ⟨by decide, fastPath_identity _ demoFfmpegMissing (by decide)⟩

/-- C8: a WAV whose sample rate satisfies 16000 / R > 8 (R below 2000 Hz)
that reaches the resampling step of the pure-resample tier is rejected with
the UnsupportedSampleRateError kind (realized as AudioReadError with the
"too low" message) without attempting to resample. -/
theorem lowSampleRate_rejected (w : WavFile)
    (henc : (w.spec.sampleFormat = .int ∧
              (w.spec.bitsPerSample = 16 ∨ w.spec.bitsPerSample = 32)) ∨
            w.spec.sampleFormat = .float)
    (_hch : 1 ≤ w.spec.channels) (hr : 8 * w.spec.sampleRate < 16000) :
    convertAudioRust (.wav w) = .error (unsupportedSampleRateError w.spec.sampleRate) := by
  have hne : w.spec.sampleRate ≠ 16000 := by omega
  rcases henc with ⟨hint, hb | hb⟩ | hfl
  · simp [convertAudioRust, readSamplesF32, hint, hb, resampleStep, hne, hr]
  · simp [convertAudioRust, readSamplesF32, hint, hb, resampleStep, hne, hr]
  · simp [convertAudioRust, readSamplesF32, hfl, resampleStep, hne, hr]

/-- Witness for C8 on a mono 1000 Hz 16-bit WAV. -/
theorem lowSampleRate_rejected_witness :
    convertAudioRust (.wav { spec := { channels := 1, sampleRate := 1000,
                                       bitsPerSample := 16, sampleFormat := .int },
                             samples := [] })
      = .error (unsupportedSampleRateError 1000) :=
  lowSampleRate_rejected _ (Or.inl ⟨rfl, Or.inl rfl⟩) (by decide) (by decide)

/-- C5: when a get_or_load call must load (slot empty or a different model
requested) and the underlying load fails, it returns the ModelLoadError
message and leaves the engine slot empty, and a subsequent call with a
valid path loads from the clean state and succeeds. -/
theorem failedLoad_leaves_slot_empty (load : String → Except String Unit)
    (now now2 : Nat) (p q : String) (s : MMState) (msg : String)
    (hep : s.enginePoisoned = false) (hpp : s.pathPoisoned = false)
    (hap : s.activityPoisoned = false)
    (hneed : s.engine = none ∨
      ∃ ek rr, s.engine = some ek ∧ s.currentModelPath = some rr ∧ rr ≠ p)
    (hfail : load p = .error msg) (hok : load q = .ok ()) :
    (getOrLoadParakeet load now p s).2 = .error ("Failed to load Parakeet model: " ++ msg) ∧
    (getOrLoadParakeet load now p s).1.engine = none ∧
    (getOrLoadParakeet load now2 q (getOrLoadParakeet load now p s).1).2 = .ok () ∧
    (getOrLoadParakeet load now2 q (getOrLoadParakeet load now p s).1).1.engine
      = some EngineKind.parakeet ∧
    (getOrLoadParakeet load now2 q (getOrLoadParakeet load now p s).1).1.currentModelPath
      = some q := by
  have h1 : parakeetNeedsLoad s.engine s.currentModelPath p = (none, true) := by
    rcases hneed with h | ⟨ek, rr, he, hcp, hrr⟩
    · simp [parakeetNeedsLoad, h]
    · simp [parakeetNeedsLoad, he, hcp, hrr]
  have hs1 : getOrLoadParakeet load now p s
      = ({ s with engine := none }, .error ("Failed to load Parakeet model: " ++ msg)) := by
    simp [getOrLoadParakeet, hep, hpp, h1, hfail]
  rw [hs1]
  refine ⟨rfl, rfl, ?_, ?_, ?_⟩ <;>
    simp [getOrLoadParakeet, hep, hpp, hap, parakeetNeedsLoad, hok]

/-- Witness for C5: a failing then a succeeding load from the fresh manager. -/
theorem failedLoad_leaves_slot_empty_witness :
    (getOrLoadParakeet demoLoad 1 "bad" mmInit).2
      = .error ("Failed to load Parakeet model: " ++ "missing model file") ∧
    (getOrLoadParakeet demoLoad 1 "bad" mmInit).1.engine = none ∧
    (getOrLoadParakeet demoLoad 2 "good" (getOrLoadParakeet demoLoad 1 "bad" mmInit).1).2
      = .ok () ∧
    (getOrLoadParakeet demoLoad 2 "good" (getOrLoadParakeet demoLoad 1 "bad" mmInit).1).1.engine
      = some EngineKind.parakeet ∧
    (getOrLoadParakeet demoLoad 2 "good"
        (getOrLoadParakeet demoLoad 1 "bad" mmInit).1).1.currentModelPath
      = some "good" :=
  failedLoad_leaves_slot_empty demoLoad 1 2 "bad" "good" mmInit "missing model file"
    rfl rfl rfl (Or.inl rfl) rfl rfl

/-- C1 (evaluation at the failing input): from the empty manager, loading
Moonshine at a path succeeds, and a following get_or_load_parakeet for the
SAME path also returns success — but the slot still holds the Moonshine
engine, not a Parakeet one: the wrong-engine-type arm of
get_or_load_parakeet covers only Whisper, so the claimed invariant fails. -/
theorem getOrLoadParakeet_keeps_wrong_variant :
    (getOrLoadMoonshine moonLoadOkAlways 1 "model-dir" MoonshineParams.tiny mmInit).2
      = .ok () ∧
    (getOrLoadMoonshine moonLoadOkAlways 1 "model-dir" MoonshineParams.tiny mmInit).1.engine
      = some EngineKind.moonshine ∧
    (getOrLoadParakeet loadOkAlways 2 "model-dir"
        (getOrLoadMoonshine moonLoadOkAlways 1 "model-dir" MoonshineParams.tiny mmInit).1).2
      = .ok () ∧
    (getOrLoadParakeet loadOkAlways 2 "model-dir"
        (getOrLoadMoonshine moonLoadOkAlways 1 "model-dir" MoonshineParams.tiny mmInit).1).1.engine
      = some EngineKind.moonshine := by
  refine ⟨rfl, rfl, ?_, ?_⟩ <;> rfl

/-- C2 (counterexample): a get_or_load acquisition that finds the engine
mutex poisoned does NOT recover — it surfaces the poisoning to the caller
as an error, contradicting the claim that poisoning is never surfaced. -/
theorem getOrLoadParakeet_surfaces_poison :
    (getOrLoadParakeet loadOkAlways 1 "model-dir" poisonedState).2
      = .error ("Engine mutex poisoned (likely due to previous panic): " ++ poisonedLockMsg) :=
  rfl

/-- C2 (amended): on a poisoned engine mutex, every acquisition path is
settled — the three get_or_load_* operations surface the poisoning to the
caller as an error string and leave the state unchanged; unload_model and
unload_if_idle log and return with the state unchanged, without resetting
anything; and only the transcription call sites' engine-lock acquisitions
recover by taking the inner value and clearing the slot, proceeding past
the lock with the mutex still poisoned, after which any error they report
is a ModelLoadError, not a poison error. -/
theorem poisonRecovery_only_at_callsites (load wload : String → Except String Unit)
    (mload : String → MoonshineParams → Except String Unit)
    (now now2 : Nat) (p : String) (variant : MoonshineParams) (s : MMState)
    (h : s.enginePoisoned = true) :
    (getOrLoadParakeet load now p s
      = (s, .error ("Engine mutex poisoned (likely due to previous panic): " ++ poisonedLockMsg)) ∧
     getOrLoadWhisper wload now p s
      = (s, .error ("Engine mutex poisoned (likely due to previous panic): " ++ poisonedLockMsg)) ∧
     getOrLoadMoonshine mload now p variant s
      = (s, .error ("Engine mutex poisoned (likely due to previous panic): " ++ poisonedLockMsg))) ∧
    (unloadModel s = s ∧ unloadIfIdle now2 s = s) ∧
    (transcribeLockEngine s = { s with engine := none } ∧
     (transcribeAcquireParakeet s).2
       = .error (.modelLoadError
           "Model not loaded (may have been cleared after previous error). Please try again.") ∧
     (transcribeAcquireWhisper s).2
       = .error (.modelLoadError
           "Model not loaded (may have been cleared after previous error). Please try again.") ∧
     (transcribeAcquireMoonshine s).2
       = .error (.modelLoadError
           "Model not loaded (may have been cleared after previous error). Please try again.")) := by
  refine ⟨⟨?_, ?_, ?_⟩, ⟨?_, ?_⟩, ?_, ?_, ?_, ?_⟩ <;>
    simp [getOrLoadParakeet, getOrLoadWhisper, getOrLoadMoonshine, unloadModel,
          unloadIfIdle, transcribeLockEngine, transcribeAcquireParakeet,
          transcribeAcquireWhisper, transcribeAcquireMoonshine, h]

/-- Witness for the amended C2 at the concrete poisoned state. -/
theorem poisonRecovery_only_at_callsites_witness :
    getOrLoadParakeet loadOkAlways 3 "other-dir" poisonedState
      = (poisonedState,
         .error ("Engine mutex poisoned (likely due to previous panic): " ++ poisonedLockMsg)) ∧
    getOrLoadWhisper loadOkAlways 3 "other-dir" poisonedState
      = (poisonedState,
         .error ("Engine mutex poisoned (likely due to previous panic): " ++ poisonedLockMsg)) ∧
    unloadModel poisonedState = poisonedState ∧
    unloadIfIdle 1000 poisonedState = poisonedState ∧
    transcribeLockEngine poisonedState = { poisonedState with engine := none } ∧
    (transcribeAcquireParakeet poisonedState).2
      = .error (.modelLoadError
          "Model not loaded (may have been cleared after previous error). Please try again.") :=
  ⟨(poisonRecovery_only_at_callsites loadOkAlways loadOkAlways moonLoadOkAlways 3 1000
      "other-dir" MoonshineParams.tiny poisonedState rfl).1.1,
   (poisonRecovery_only_at_callsites loadOkAlways loadOkAlways moonLoadOkAlways 3 1000
      "other-dir" MoonshineParams.tiny poisonedState rfl).1.2.1,
   (poisonRecovery_only_at_callsites loadOkAlways loadOkAlways moonLoadOkAlways 3 1000
      "other-dir" MoonshineParams.tiny poisonedState rfl).2.1.1,
   (poisonRecovery_only_at_callsites loadOkAlways loadOkAlways moonLoadOkAlways 3 1000
      "other-dir" MoonshineParams.tiny poisonedState rfl).2.1.2,
   (poisonRecovery_only_at_callsites loadOkAlways loadOkAlways moonLoadOkAlways 3 1000
      "other-dir" MoonshineParams.tiny poisonedState rfl).2.2.1,
   (poisonRecovery_only_at_callsites loadOkAlways loadOkAlways moonLoadOkAlways 3 1000
      "other-dir" MoonshineParams.tiny poisonedState rfl).2.2.2.1⟩

/-- Helper: an input that passes the tier-1 format check is a canonical WAV,
and the pure-Rust tier succeeds on it (so a tier-2 failure implies the
tier-1 check failed). -/
theorem validFormat_rust_ok (audioData : AudioData)
    (h : isValidWavFormat audioData = true) :
    ∃ o, convertAudioRust audioData = .ok o := by
  cases audioData with
  | malformed m => simp [isValidWavFormat] at h
  | wav w =>
      simp only [isValidWavFormat, Bool.and_eq_true, decide_eq_true_eq, beq_iff_eq] at h
      obtain ⟨⟨⟨hfmt, hch⟩, hsr⟩, hb⟩ := h
      simp [convertAudioRust, readSamplesF32, hfmt, hb, resampleStep, hsr]

/-- C7: whenever the tier-2 pure-Rust conversion fails,
convert_audio_for_whisper never returns that tier-2 error — the result is
exactly the tier-3 FFmpeg fallback's result, which errors only if tier 3
fails, with the distinguished FfmpegNotFoundError when the binary is
absent, and succeeds when the external run succeeds. -/
theorem tier2_failure_falls_back (audioData : AudioData)
    (ffmpeg : AudioData → FfmpegOutcome) (e : TranscriptionError)
    (hfail : convertAudioRust audioData = .error e) :
    convertAudioForWhisper ffmpeg audioData = runFfmpegTier ffmpeg audioData ∧
    (ffmpeg audioData = .ioNotFound →
      convertAudioForWhisper ffmpeg audioData
        = .error (.ffmpegNotFoundError ffmpegMissingMsg)) ∧
    (∀ (outputBytes : AudioData) (stderr : String),
      ffmpeg audioData = .ran true stderr outputBytes →
      convertAudioForWhisper ffmpeg audioData = .ok outputBytes) := by
  have hv : isValidWavFormat audioData = false := by
    cases hx : isValidWavFormat audioData with
    | false => rfl
    | true =>
        obtain ⟨o, ho⟩ := validFormat_rust_ok audioData hx
        rw [ho] at hfail
        exact Except.noConfusion hfail
  have hmain : convertAudioForWhisper ffmpeg audioData = runFfmpegTier ffmpeg audioData := by
    simp [convertAudioForWhisper, hv, hfail]
  refine ⟨hmain, ?_, ?_⟩
  · intro hn; rw [hmain]; simp [runFfmpegTier, hn]
  · intro outputBytes stderr hr; rw [hmain]; simp [runFfmpegTier, hr]

/-- Witness for C7: unparseable input on a host without ffmpeg. -/
theorem tier2_failure_falls_back_witness :
    convertAudioRust (.malformed "no RIFF header")
      = .error (.audioReadError ("Failed to parse WAV file: " ++ "no RIFF header")) ∧
    convertAudioForWhisper demoFfmpegMissing (.malformed "no RIFF header")
      = .error (.ffmpegNotFoundError ffmpegMissingMsg) :=
  ⟨rfl,
   (tier2_failure_falls_back (.malformed "no RIFF header") demoFfmpegMissing
      (.audioReadError ("Failed to parse WAV file: " ++ "no RIFF header")) rfl).2.1 rfl⟩

/-- Helper: any success of convert_audio_rust is a WAV with the canonical
16 kHz / mono / 16-bit-int spec (it is serialized with exactly that
hound::WavSpec). -/
theorem rust_output_canonical (audioData o : AudioData)
    (h : convertAudioRust audioData = .ok o) :
    ∃ w2 : WavFile, o = .wav w2 ∧ w2.spec = canonicalSpec := by
  cases audioData with
  | malformed m => exact Except.noConfusion h
  | wav w =>
      unfold convertAudioRust at h
      repeat' split at h
      all_goals
        first
          | exact Except.noConfusion h
          | (injection h with h2; exact ⟨_, h2.symm, rfl⟩)

/-- C3: for a well-formed WAV in a supported source encoding with any
channel count ≥ 1, whenever convert_audio_for_whisper succeeds via tier 1
or tier 2, the returned bytes are a WAV whose format is 16000 Hz, 1
channel, 16-bit signed integer PCM. -/
theorem normalizer_tier12_canonical (w : WavFile) (ffmpeg : AudioData → FfmpegOutcome)
    (out : AudioData)
    (_henc : (w.spec.sampleFormat = .int ∧
               (w.spec.bitsPerSample = 16 ∨ w.spec.bitsPerSample = 32)) ∨
             (w.spec.sampleFormat = .float ∧ w.spec.bitsPerSample = 32))
    (_hch : 1 ≤ w.spec.channels)
    (htier : isValidWavFormat (.wav w) = true ∨ ∃ o, convertAudioRust (.wav w) = .ok o)
    (hout : convertAudioForWhisper ffmpeg (.wav w) = .ok out) :
    ∃ w2 : WavFile, out = .wav w2 ∧ w2.spec = canonicalSpec := by
  by_cases hv : isValidWavFormat (.wav w) = true
  · rw [convertAudioForWhisper, if_pos hv] at hout
    injection hout with h2
    subst h2
    refine ⟨w, rfl, ?_⟩
    simp only [isValidWavFormat, Bool.and_eq_true, decide_eq_true_eq, beq_iff_eq] at hv
    obtain ⟨⟨⟨hfmt, hch1⟩, hsr⟩, hb⟩ := hv
    obtain ⟨spec, samples⟩ := w
    obtain ⟨ch, sr, b, f⟩ := spec
    simp_all [canonicalSpec]
  · have hv' : isValidWavFormat (.wav w) = false := by
      cases hx : isValidWavFormat (.wav w) with
      | false => rfl
      | true => exact absurd hx hv
    rcases htier with h | ⟨o, ho⟩
    · exact absurd h hv
    · have hcw : convertAudioForWhisper ffmpeg (.wav w) = .ok o := by
        simp [convertAudioForWhisper, hv', ho]
      rw [hcw] at hout
      injection hout with h2
      subst h2
      exact rust_output_canonical _ _ ho

/-- Witness for C3: a stereo 48 kHz 16-bit input converted via tier 2. -/
theorem normalizer_tier12_canonical_witness :
    convertAudioForWhisper demoFfmpegMissing demoStereo48k
      = .ok (.wav { spec := canonicalSpec, samples := [] }) ∧
    ∃ w2 : WavFile, (AudioData.wav { spec := canonicalSpec, samples := [] }) = .wav w2 ∧
      w2.spec = canonicalSpec := by
  have hout : convertAudioForWhisper demoFfmpegMissing demoStereo48k
      = .ok (.wav { spec := canonicalSpec, samples := [] }) := by rfl
  exact ⟨hout,
    normalizer_tier12_canonical
      { spec := { channels := 2, sampleRate := 48000, bitsPerSample := 16,
                  sampleFormat := .int },
        samples := [] }
      demoFfmpegMissing _ (Or.inl ⟨rfl, Or.inl rfl⟩) (by decide)
      (Or.inr ⟨_, rfl⟩) hout⟩

/-- Helper: the cumulative sinc output count is monotone in the input
consumed. -/
theorem sincCumOut_mono (r : Nat) {m m' : Nat} (h : m ≤ m') :
    sincCumOut r m ≤ sincCumOut r m' := by
  unfold sincCumOut
  apply Nat.div_le_div_right
  have hm : m * 16000 ≤ m' * 16000 := Nat.mul_le_mul_right _ h
  omega

/-- Helper: before any input is consumed the resampler has produced
nothing. -/
theorem sincCumOut_zero (r : Nat) : sincCumOut r 0 = 0 := by
  unfold sincCumOut
  rcases Nat.eq_zero_or_pos r with hr | hr
  · subst hr; rfl
  · apply Nat.div_eq_of_lt; omega

/-- Helper: the chunked loop appends at least enough samples to bring the
cumulative output up to the count for the whole input, provided the fuel
covers the remaining chunks and the entry output count is consistent. -/
theorem resampleLoopGo_length_ge (r inputLen : Nat) :
    ∀ (fuel inputPos cout : Nat) (acc : List ℚ),
      inputLen ≤ inputPos + 1024 * fuel →
      cout = sincCumOut r inputPos →
      acc.length + (sincCumOut r (max inputLen inputPos) - cout)
        ≤ (resampleLoopGo r inputLen fuel inputPos cout acc).length := by
  intro fuel
  induction fuel with
  | zero =>
      intro inputPos cout acc hle hc
      have hmax : max inputLen inputPos = inputPos := by omega
      simp only [resampleLoopGo, hmax, hc]
      omega
  | succ fuel ih =>
      intro inputPos cout acc hle hc
      by_cases hlt : inputPos < inputLen
      · have hstep : resampleLoopGo r inputLen (fuel + 1) inputPos cout acc
            = resampleLoopGo r inputLen fuel (inputPos + 1024)
                (sincCumOut r (inputPos + 1024))
                (acc ++ List.replicate (sincCumOut r (inputPos + 1024) - cout) 0) := by
          simp only [resampleLoopGo, if_pos hlt]
        rw [hstep]
        have ihh := ih (inputPos + 1024) (sincCumOut r (inputPos + 1024))
          (acc ++ List.replicate (sincCumOut r (inputPos + 1024) - cout) 0)
          (by omega) rfl
        have hlen : (acc ++ List.replicate (sincCumOut r (inputPos + 1024) - cout)
            (0 : ℚ)).length = acc.length + (sincCumOut r (inputPos + 1024) - cout) := by
          simp
        rw [hlen] at ihh
        have hmax1 : max inputLen inputPos = inputLen := by omega
        have ha : cout ≤ sincCumOut r (inputPos + 1024) := by
          rw [hc]; exact sincCumOut_mono r (by omega)
        have hb : sincCumOut r (inputPos + 1024)
            ≤ sincCumOut r (max inputLen (inputPos + 1024)) :=
          sincCumOut_mono r (le_max_right _ _)
        have hcN : sincCumOut r inputLen
            ≤ sincCumOut r (max inputLen (inputPos + 1024)) :=
          sincCumOut_mono r (le_max_left _ _)
        rw [hmax1]
        omega
      · have hmax : max inputLen inputPos = inputPos := by omega
        simp only [resampleLoopGo, if_neg hlt, hmax, hc]
        omega

/-- Helper: the full loop produces at least the cumulative count for the
whole input. -/
theorem resampleLoop_length_ge (r : Nat) (monoSamples : List ℚ) :
    sincCumOut r monoSamples.length ≤ (resampleLoop r monoSamples).length := by
  have hfuel : monoSamples.length ≤ 0 + 1024 * monoSamples.length := by
    have : 1 * monoSamples.length ≤ 1024 * monoSamples.length :=
      Nat.mul_le_mul_right _ (by omega)
    omega
  have h := resampleLoopGo_length_ge r monoSamples.length monoSamples.length 0 0 []
    hfuel (sincCumOut_zero r).symm
  simpa [resampleLoop, Nat.max_self] using h

/-- Helper: the truncation target never exceeds what the loop produces:
round(n * 16000 / r) is at most ceil(n * 16000 / r), for r at least 2. -/
theorem expectedOutputLen_le_sincCumOut (r n : Nat) (hr : 2 ≤ r) :
    expectedOutputLen r n ≤ sincCumOut r n := by
  unfold expectedOutputLen sincCumOut
  have h1 : 2 * ((2 * (n * 16000) + r) / (2 * r) * r) ≤ 2 * (n * 16000) + r := by
    have hd := Nat.div_mul_le_self (2 * (n * 16000) + r) (2 * r)
    calc 2 * ((2 * (n * 16000) + r) / (2 * r) * r)
        = (2 * (n * 16000) + r) / (2 * r) * (2 * r) := by ring
    _ ≤ 2 * (n * 16000) + r := hd
  rw [Nat.le_div_iff_mul_le (by omega)]
  generalize hx : (2 * (n * 16000) + r) / (2 * r) * r = x at h1 ⊢
  omega

/-- C4: resampling length law — for a mono input of length N at a source
rate R with 2000 ≤ R and R ≠ 16000, the pure-resample tier processes it
successfully and its output length is exactly round(N * 16000 / R), never
off by one from the 1024-sample chunking and final-chunk zero padding. -/
theorem resample_length_law (r : Nat) (monoSamples : List ℚ)
    (hr : 2000 ≤ r) (hne : r ≠ 16000) :
    resampleStep r monoSamples = .ok (resampleTo16k r monoSamples) ∧
    (resampleTo16k r monoSamples).length = expectedOutputLen r monoSamples.length := by
  constructor
  · simp [resampleStep, hne]
    omega
  · unfold resampleTo16k
    rw [List.length_take]
    have h1 := resampleLoop_length_ge r monoSamples
    have h2 := expectedOutputLen_le_sincCumOut r monoSamples.length (by omega)
    omega

/-- Witness for C4 at rate 48000 with a three-sample input. -/
theorem resample_length_law_witness :
    (2000 ≤ 48000 ∧ (48000 : Nat) ≠ 16000) ∧
    resampleStep 48000 [0, 0, 0] = .ok (resampleTo16k 48000 [0, 0, 0]) ∧
    (resampleTo16k 48000 [0, 0, 0]).length = expectedOutputLen 48000 3 :=
  ⟨⟨by decide, by decide⟩,
   (resample_length_law 48000 [0, 0, 0] (by decide) (by decide)).1,
   (resample_length_law 48000 [0, 0, 0] (by decide) (by decide)).2⟩
